import Mathlib

set_option maxRecDepth 100000

/-!
# Verification of the DBLP scraper

Shallow embedding of the pure decision logic of the DBLP scraper
(`conf_scrapper.py`, `dblp_journals_scrapper.py`,
`get_countries_conf_updated.py`) and proofs about it.

Python strings are modelled as `List Char` (or `String`, converted with
`String.data`); Python's substring test `p in s` is `containsL`, `str.lower`
is `lowerL`, `str.strip` is `stripL`.  Regular-expression searches used by
the scraper are modelled by dedicated leftmost-match scanners.
-/

/-- Python `str.lower` (character-wise). -/
def lowerL (s : List Char) : List Char := s.map Char.toLower

/-- Test `isPrefixL p s` : whether `p` starts `s`. -/
def isPrefixL : List Char → List Char → Bool
  | [], _ => true
  | _ :: _, [] => false
  | a :: as, b :: bs => a == b && isPrefixL as bs

/-- Python's substring test `p in s` (true when `p` occurs contiguously in `s`;
an empty `p` always occurs). -/
def containsL (s p : List Char) : Bool :=
  match s with
  | [] => isPrefixL p []
  | c :: t => isPrefixL p (c :: t) || containsL t p

/-- Python `str.strip`: drop leading and trailing whitespace. -/
def stripL (s : List Char) : List Char :=
  ((s.dropWhile Char.isWhitespace).reverse.dropWhile Char.isWhitespace).reverse

/-- Python `s.split(',')`. -/
def splitComma : List Char → List (List Char)
  | [] => [[]]
  | c :: t =>
    if c = ',' then [] :: splitComma t
    else
      match splitComma t with
      | [] => [[c]]
      | h :: r => (c :: h) :: r

/-! ## `conf_scrapper.py` : `is_valid_content_link` (lines 292-320) -/

/-- The `skip_patterns` list of `is_valid_content_link`. -/
def skip_patterns : List String :=
  ["bibtex", "ris", "rdf", "xml", "endnote", ".nt", ".ttl",
   "google.com", "scholar.google", "semanticscholar",
   "citeseer", "pubpeer", "reddit.com", "linkedin.com",
   "bibsonomy", "bluesky", "twitter.com", "doi.org",
   "usenix.org", "acm.org", "ieee.org"]

/-- The `valid_patterns` list of `is_valid_content_link`. -/
def valid_patterns : List String :=
  ["/db/conf/", "/db/journals/", "contents", "proceedings"]

/-- Embeds `DBLPScraper.is_valid_content_link` (conf_scrapper.py lines 292-320).
The denylist is tested against `url.lower()`, the domain and the allowlist
against `url` verbatim, exactly as in the source. -/
def is_valid_content_link (url : String) : Bool :=
  if !containsL url.data "dblp.org".data then false
  else if skip_patterns.any (fun p => containsL (lowerL url.data) p.data) then false
  else valid_patterns.any (fun p => containsL url.data p.data)

/-! ## `conf_scrapper.py` : `is_paper_entry` (lines 387-424) -/

/-- The observable features of a DBLP list entry (`li.entry` DOM node) that
`is_paper_entry` inspects: its `class` attribute, the number of
`span[itemprop='author']` sub-elements, and the text of its `span.title`
sub-element (`none` when the element is absent, in which case the Python
`find_element` raises and the bare `except` skips the title rule). -/
structure PageEntry where
  classes : String
  authorCount : Nat
  titleText : Option String
deriving DecidableEq

/-- The `paper_indicators` list of `is_paper_entry`. -/
def paper_indicators : List String := ["inproceedings", "article", "incollection"]

/-- Embeds `DBLPScraper.is_paper_entry` (conf_scrapper.py lines 387-424). -/
def is_paper_entry (e : PageEntry) : Bool :=
  if containsL e.classes.data "editor".data || containsL e.classes.data "toc".data then
    false
  else if paper_indicators.any (fun s => containsL e.classes.data s.data) then
    true
  else if decide (0 < e.authorCount) then
    true
  else
    match e.titleText with
    | some t => decide (10 < (stripL t.data).length)
    | none => false

/-- The classification policy as stated by the specification: not editorial,
and (publication-type class, or an author sub-element, or a title longer than
10 characters).  Refinement target compared against `is_paper_entry`. -/
def is_record_policy (e : PageEntry) : Bool :=
  !(containsL e.classes.data "editor".data || containsL e.classes.data "toc".data)
  && (paper_indicators.any (fun s => containsL e.classes.data s.data)
      || decide (0 < e.authorCount)
      || (match e.titleText with
          | some t => decide (10 < (stripL t.data).length)
          | none => false))

/-! ## `conf_scrapper.py` : record deduplication and the extraction batch
(lines 352-378) -/

/-- A `paper_data` record as built by `extract_paper_data`; only the fields
the deduplication key and the claims inspect are kept. -/
structure ConfPaper where
  name : String
  authors : String
  conference_href : String
  paper_href : String
  year : String
deriving DecidableEq

/-- The deduplication key `(paper['name'].lower().strip(), paper['authors'].lower().strip())`
of conf_scrapper.py line 375. -/
def paperKey (p : ConfPaper) : List Char × List Char :=
  (stripL (lowerL p.name.data), stripL (lowerL p.authors.data))

/-- Truthiness of `paper['name'].strip()` (nonempty after stripping). -/
def nonblankName (p : ConfPaper) : Bool := !(stripL p.name.data).isEmpty

/-- The deduplication loop of `scrape_papers_from_content_page`
(conf_scrapper.py lines 371-378): `seen` is the `seen_papers` set, a record is
kept (and its key added) only when its key is unseen and its stripped name is
nonempty. -/
def dedupAux : List ConfPaper → List (List Char × List Char) → List ConfPaper
  | [], _ => []
  | p :: rest, seen =>
    if paperKey p ∈ seen then dedupAux rest seen
    else if nonblankName p then p :: dedupAux rest (paperKey p :: seen)
    else dedupAux rest seen

/-- The record-level deduplication pass (`unique_papers` computation),
started with an empty `seen_papers` set. -/
def deduplicate_papers (papers : List ConfPaper) : List ConfPaper := dedupAux papers []

/-- First-occurrence filter keyed by `paperKey`, with no condition on the
name: the specification's description of the deduplication pass. -/
def firstOccAux : List ConfPaper → List (List Char × List Char) → List ConfPaper
  | [], _ => []
  | p :: rest, seen =>
    if paperKey p ∈ seen then firstOccAux rest seen
    else p :: firstOccAux rest (paperKey p :: seen)

/-- The filter `firstOcc` keeps the first record of each key, in first-seen order. -/
def firstOcc (papers : List ConfPaper) : List ConfPaper := firstOccAux papers []

/-- The record-level data flow of `scrape_papers_from_content_page`
(conf_scrapper.py lines 352-378), starting from the records accepted by
`is_paper_entry` and `extract_paper_data`: each accepted record whose name is
nonblank is appended to `papers` AND immediately passed to
`insert_conf_paper` (line 362); deduplication (lines 371-378) happens only
afterwards, on the returned list.  First component: the sequence of records
handed to `insert_conf_paper`; second: the deduplicated list returned. -/
def scrape_batch (accepted : List ConfPaper) : List ConfPaper × List ConfPaper :=
  (accepted.filter (fun p => nonblankName p),
   deduplicate_papers (accepted.filter (fun p => nonblankName p)))

/-! ## `dblp_journals_scrapper.py` : regex scanners

`extract_volume_info` (lines 455-481) and `extract_journal_paper_info`
(lines 237-329) use `re.search` with the patterns
`\b(19|20)\d{2}\b`, `\b(19|20)\d{2}-(19|20)?\d{2}\b`, `volume\s*(\d+)`,
`vol\.?\s*(\d+)`.  `re.search` returns the match at the leftmost starting
position; the scanners below try every position left to right. -/

/-- A regex word character (`\w`, ASCII fragment). -/
def wordChar (c : Char) : Bool := c.isAlphanum || c == '_'

/-- Word boundary `\b` before a (word) character whose predecessor is `prev`
(`none` at the start of the text). -/
def bdryB : Option Char → Bool
  | none => true
  | some c => !wordChar c

/-- Word boundary `\b` after a (word) character followed by `rest`. -/
def bdryA : List Char → Bool
  | [] => true
  | c :: _ => !wordChar c

/-- The alternation `(19|20)` on two characters. -/
def isYearStart (a b : Char) : Bool := (a == '1' && b == '9') || (a == '2' && b == '0')

/-- Leftmost match of `\b(19|20)\d{2}\b` : scans the text, returning the four
matched characters.  `prev` is the character before the current position. -/
def findYearFrom : Option Char → List Char → Option (List Char)
  | _, [] => none
  | prev, a :: rest =>
    match rest with
    | b :: c :: d :: rest2 =>
      if bdryB prev && isYearStart a b && c.isDigit && d.isDigit && bdryA rest2 then
        some [a, b, c, d]
      else findYearFrom (some a) rest
    | _ => none

/-- The tail `(19|20)?\d{2}\b` of the year-range pattern, after the hyphen,
with the backtracking of the optional group: first try a four-digit year
`(19|20)\d{2}\b`, then fall back to two digits `\d{2}\b`. -/
def rangeTailOk : List Char → Bool
  | i :: j :: k :: l :: rest =>
    (isYearStart i j && k.isDigit && l.isDigit && bdryA rest)
    || (i.isDigit && j.isDigit && bdryA (k :: l :: rest))
  | i :: j :: rest => i.isDigit && j.isDigit && bdryA rest
  | _ => false

/-- Leftmost match of `\b(19|20)\d{2}-(19|20)?\d{2}\b`, returning the first
year of the matched range (the code applies `.group().split('-')[0]`). -/
def findRangeFrom : Option Char → List Char → Option (List Char)
  | _, [] => none
  | prev, e :: rest =>
    match rest with
    | f :: g :: h :: m :: rest2 =>
      if bdryB prev && isYearStart e f && g.isDigit && h.isDigit && m == '-'
          && rangeTailOk rest2 then
        some [e, f, g, h]
      else findRangeFrom (some e) rest
    | _ => none

/-- Helper `dropCI pat s` : consume the literal `pat` at the head of `s`,
case-insensitively (the `re.IGNORECASE` flag), returning the remainder. -/
def dropCI : List Char → List Char → Option (List Char)
  | [], s => some s
  | _ :: _, [] => none
  | a :: ps, b :: ss => if a.toLower == b.toLower then dropCI ps ss else none

/-- The tail `\s*(\d+)` of the volume patterns: skip whitespace, then take a
nonempty run of digits (the captured group). -/
def volTail (s : List Char) : Option (List Char) :=
  let s2 := s.dropWhile Char.isWhitespace
  let ds := s2.takeWhile Char.isDigit
  if ds.isEmpty then none else some ds

/-- The tail `\.?\s*(\d+)` : an optional dot, then `volTail`.  Consuming the
dot when present is equivalent to the regex's backtracking, since neither
`\s*` nor `\d+` can consume a dot. -/
def volDotTail (s : List Char) : Option (List Char) :=
  match s with
  | '.' :: t => volTail t
  | t => volTail t

/-- Leftmost match of `volume\s*(\d+)` (IGNORECASE), returning the digits. -/
def findVolumeWordFrom : List Char → Option (List Char)
  | [] => none
  | c :: rest =>
    match dropCI "volume".data (c :: rest) with
    | some after =>
      match volTail after with
      | some ds => some ds
      | none => findVolumeWordFrom rest
    | none => findVolumeWordFrom rest

/-- Leftmost match of `vol\.?\s*(\d+)` (IGNORECASE), returning the digits. -/
def findVolNumFrom : List Char → Option (List Char)
  | [] => none
  | c :: rest =>
    match dropCI "vol".data (c :: rest) with
    | some after =>
      match volDotTail after with
      | some ds => some ds
      | none => findVolNumFrom rest
    | none => findVolNumFrom rest

/-! ## `dblp_journals_scrapper.py` : `extract_volume_info` (lines 455-481)
and the year/volume fields of `extract_journal_paper_info` (lines 296-308) -/

/-- The `volume_info` dict built by `extract_volume_info`: both keys are
always present (the code stores `""` on a failed parse). -/
structure VolumeInfo where
  volume : List Char
  year : List Char
deriving DecidableEq

/-- Embeds `DBLPJournalScraper.extract_volume_info` (dblp_journals_scrapper.py
lines 455-481). -/
def extract_volume_info (volume_text : String) : VolumeInfo :=
  { volume :=
      match findVolumeWordFrom volume_text.data with
      | some ds => ds
      | none =>
        match findVolNumFrom volume_text.data with
        | some ds => ds
        | none => []
    year :=
      match findYearFrom none volume_text.data with
      | some y => y
      | none =>
        match findRangeFrom none volume_text.data with
        | some y => y
        | none => [] }

/-- A `volume_info` argument of `extract_journal_paper_info` viewed as a
Python dict: each field is `none` when the key is absent. -/
structure VolCtx where
  volume : Option (List Char)
  year : Option (List Char)
deriving DecidableEq

/-- Python truthiness of the `volume_info` dict (`{}` is falsy). -/
def dictTruthy (c : VolCtx) : Bool := c.volume.isSome || c.year.isSome

/-- First `\b(19|20)\d{2}\b` token of a record's own text (the re-parse of
line 300). -/
def yearOfText (paper_text : String) : List Char :=
  match findYearFrom none paper_text.data with
  | some y => y
  | none => []

/-- First `vol\.?\s*(\d+)` match of a record's own text (the re-parse of
line 307). -/
def volOfText (paper_text : String) : List Char :=
  match findVolNumFrom paper_text.data with
  | some ds => ds
  | none => []

/-- The year and volume fields computed by
`DBLPJournalScraper.extract_journal_paper_info`
(dblp_journals_scrapper.py lines 296-308): each is taken from `volume_info`
when `volume_info` is truthy and has the key (`if volume_info and 'year' in
volume_info`), and re-parsed from the record text otherwise. -/
def extract_journal_paper_yearvol (ctx : Option VolCtx) (paper_text : String) :
    List Char × List Char :=
  (match ctx with
   | some c => if dictTruthy c && c.year.isSome then c.year.getD [] else yearOfText paper_text
   | none => yearOfText paper_text,
   match ctx with
   | some c => if dictTruthy c && c.volume.isSome then c.volume.getD [] else volOfText paper_text
   | none => volOfText paper_text)

/-! ## `get_countries_conf_updated.py` : the country resolver

`AuthorCountryLookup` holds two caches (`author_cache`, `paper_cache`,
Python dicts, modelled as association lists where an update prepends and a
lookup takes the first hit) and performs network lookups.  The network is
modelled by outcome values passed in (`OAOutcome` for the OpenAlex author
search, `SSOutcome` for the Semantic Scholar paper search); each embedded
lookup additionally returns the number of network requests it issued, so
"no network call" and "no retry" are statable.  Python exceptions raised by
a request are the `err` outcomes; the embedded functions are total, which is
the image of "no exception propagates".
-/

/-- An OpenAlex institution object (only the consulted field). -/
structure OAInstitution where
  country_code : Option String
deriving DecidableEq

/-- An entry of an OpenAlex `affiliations` list; `institution` is `none`
when the key is absent (the code defaults it to `{}`). -/
structure OAAffiliation where
  institution : Option OAInstitution
deriving DecidableEq

/-- An OpenAlex author-search result. -/
structure OAResult where
  last_known_institution : Option OAInstitution
  affiliations : List OAAffiliation
deriving DecidableEq

/-- Outcome of the OpenAlex request in `get_country_from_openalex`:
an exception (network failure or non-200 via `raise_for_status`), or a JSON
reply whose `results` list is given (an absent `results` key behaves as `[]`). -/
inductive OAOutcome where
  | err : OAOutcome
  | ok : List OAResult → OAOutcome
deriving DecidableEq

/-- A Semantic Scholar author object; `affiliations` is `none` when the key
is absent. -/
structure SSAuthor where
  affiliations : Option (List String)
deriving DecidableEq

/-- A Semantic Scholar paper object (only the consulted fields). -/
structure SSPaper where
  title : String
  authors : Option (List SSAuthor)
deriving DecidableEq

/-- Outcome of the Semantic Scholar request in `get_semantic_scholar_paper`:
an exception, a non-200 status, or a 200 reply with its `data` list. -/
inductive SSOutcome where
  | err : SSOutcome
  | notOk : SSOutcome
  | ok : List SSPaper → SSOutcome
deriving DecidableEq

/-- The mutable state of `AuthorCountryLookup`. -/
structure ResolverState where
  author_cache : List (String × Option String)
  paper_cache : List (List Char × Option SSPaper)
deriving DecidableEq

/-- Dict lookup in an association list (first hit wins; updates prepend). -/
def alookup {α β : Type} [DecidableEq α] : List (α × β) → α → Option β
  | [], _ => none
  | (k, v) :: t, x => if x = k then some v else alookup t x

/-- Python truthiness of an optional country-code string (`None` and `""`
are falsy). -/
def truthyStr : Option String → Bool
  | none => false
  | some s => !s.isEmpty

/-- The `affiliations` backup loop of `get_country_from_openalex`
(get_countries_conf_updated.py lines 87-93): first affiliation whose
institution carries a truthy `country_code`. -/
def findAffCountry : List OAAffiliation → Option String
  | [] => none
  | aff :: rest =>
    match aff.institution with
    | some inst =>
      if truthyStr inst.country_code then inst.country_code else findAffCountry rest
    | none => findAffCountry rest

/-- Embeds `AuthorCountryLookup.get_country_from_openalex`
(get_countries_conf_updated.py lines 62-100).  Returns the country (possibly
`none`), the new state, and the number of network requests issued.  On a
cache hit the cached value is returned with no request; otherwise one request
is made and every path — error, empty results, hit or miss — stores its
result in `author_cache` before returning it. -/
def get_country_from_openalex (net : OAOutcome) (st : ResolverState)
    (author_name : String) : Option String × ResolverState × Nat :=
  match alookup st.author_cache author_name with
  | some v => (v, st, 0)
  | none =>
    let res : Option String :=
      match net with
      | .err => none
      | .ok [] => none
      | .ok (first :: _) =>
        match first.last_known_institution with
        | some inst =>
          if truthyStr inst.country_code then inst.country_code
          else findAffCountry first.affiliations
        | none => findAffCountry first.affiliations
    (res, { st with author_cache := (author_name, res) :: st.author_cache }, 1)

/-- Embeds `AuthorCountryLookup.clean_title` (lines 49-51): `title.lower().strip()`. -/
def clean_title (title : String) : List Char := stripL (lowerL title.data)

/-- The `paper_cache` key (line 105). -/
def ssCacheKey (title : String) : List Char := "ss_".data ++ clean_title title

/-- The candidate loop of `get_semantic_scholar_paper` (lines 122-129):
first paper whose lowercased title is a substring of the cleaned query title
or vice versa. -/
def findMatchingPaper : List Char → List SSPaper → Option SSPaper
  | _, [] => none
  | ct, p :: rest =>
    if containsL ct (lowerL p.title.data) || containsL (lowerL p.title.data) ct then some p
    else findMatchingPaper ct rest

/-- Embeds `AuthorCountryLookup.get_semantic_scholar_paper`
(get_countries_conf_updated.py lines 102-139).  The `authors` argument only
feeds the query string, so it cannot influence the outcome.  On a cache hit
the cached value is returned with no request; otherwise one request is made
and the result — the matched paper, or `none` on error, non-200, empty data
or no loose title match — is stored in `paper_cache`. -/
def get_semantic_scholar_paper (net : SSOutcome) (st : ResolverState)
    (title : String) (authors : List String) : Option SSPaper × ResolverState × Nat :=
  match alookup st.paper_cache (ssCacheKey title) with
  | some v => (v, st, 0)
  | none =>
    let res : Option SSPaper :=
      match net with
      | .err => none
      | .notOk => none
      | .ok data => findMatchingPaper (clean_title title) data
    (res, { st with paper_cache := (ssCacheKey title, res) :: st.paper_cache }, 1)

/-- The `country_keywords` table of `extract_country_from_semantic_scholar`
(get_countries_conf_updated.py lines 154-281), in dict insertion order (the
literal has no duplicate keys). -/
def country_keywords : List (String × String) :=
 [("india", "IN"),
 ("delhi", "IN"),
 ("mumbai", "IN"),
 ("bangalore", "IN"),
 ("chennai", "IN"),
 ("hyderabad", "IN"),
 ("kolkata", "IN"),
 ("pune", "IN"),
 ("iit", "IN"),
 ("iisc", "IN"),
 ("indian institute", "IN"),
 ("nit", "IN"),
 ("bits", "IN"),
 ("anna university", "IN"),
 ("pakistan", "PK"),
 ("karachi", "PK"),
 ("lahore", "PK"),
 ("islamabad", "PK"),
 ("rawalpindi", "PK"),
 ("faisalabad", "PK"),
 ("peshawar", "PK"),
 ("quetta", "PK"),
 ("multan", "PK"),
 ("gujranwala", "PK"),
 ("lums", "PK"),
 ("nust", "PK"),
 ("comsats", "PK"),
 ("bangladesh", "BD"),
 ("dhaka", "BD"),
 ("chittagong", "BD"),
 ("sylhet", "BD"),
 ("rajshahi", "BD"),
 ("buet", "BD"),
 ("du", "BD"),
 ("sri lanka", "LK"),
 ("colombo", "LK"),
 ("kandy", "LK"),
 ("moratuwa", "LK"),
 ("nepal", "NP"),
 ("kathmandu", "NP"),
 ("tribhuvan", "NP"),
 ("china", "CN"),
 ("beijing", "CN"),
 ("shanghai", "CN"),
 ("guangzhou", "CN"),
 ("shenzhen", "CN"),
 ("hangzhou", "CN"),
 ("nanjing", "CN"),
 ("wuhan", "CN"),
 ("chengdu", "CN"),
 ("xi" ++ String.singleton (Char.ofNat 39) ++ "an", "CN"),
 ("tianjin", "CN"),
 ("tsinghua", "CN"),
 ("peking", "CN"),
 ("fudan", "CN"),
 ("zhejiang", "CN"),
 ("sjtu", "CN"),
 ("chinese academy", "CN"),
 ("cas", "CN"),
 ("pku", "CN"),
 ("japan", "JP"),
 ("tokyo", "JP"),
 ("osaka", "JP"),
 ("kyoto", "JP"),
 ("nagoya", "JP"),
 ("yokohama", "JP"),
 ("kobe", "JP"),
 ("sendai", "JP"),
 ("sapporo", "JP"),
 ("todai", "JP"),
 ("kyodai", "JP"),
 ("waseda", "JP"),
 ("keio", "JP"),
 ("korea", "KR"),
 ("south korea", "KR"),
 ("seoul", "KR"),
 ("busan", "KR"),
 ("incheon", "KR"),
 ("daegu", "KR"),
 ("kaist", "KR"),
 ("snu", "KR"),
 ("yonsei", "KR"),
 ("postech", "KR"),
 ("singapore", "SG"),
 ("nus", "SG"),
 ("ntu", "SG"),
 ("smu", "SG"),
 ("malaysia", "MY"),
 ("kuala lumpur", "MY"),
 ("johor", "MY"),
 ("penang", "MY"),
 ("um", "MY"),
 ("utm", "MY"),
 ("usm", "MY"),
 ("upm", "MY"),
 ("thailand", "TH"),
 ("bangkok", "TH"),
 ("chiang mai", "TH"),
 ("chulalongkorn", "TH"),
 ("indonesia", "ID"),
 ("jakarta", "ID"),
 ("bandung", "ID"),
 ("surabaya", "ID"),
 ("itb", "ID"),
 ("ui", "ID"),
 ("ugm", "ID"),
 ("philippines", "PH"),
 ("manila", "PH"),
 ("quezon", "PH"),
 ("up", "PH"),
 ("ateneo", "PH"),
 ("vietnam", "VN"),
 ("hanoi", "VN"),
 ("ho chi minh", "VN"),
 ("hcmc", "VN"),
 ("iran", "IR"),
 ("tehran", "IR"),
 ("isfahan", "IR"),
 ("mashhad", "IR"),
 ("shiraz", "IR"),
 ("sharif", "IR"),
 ("ut", "IR"),
 ("turkey", "TR"),
 ("istanbul", "TR"),
 ("ankara", "TR"),
 ("izmir", "TR"),
 ("bogazici", "TR"),
 ("metu", "TR"),
 ("bilkent", "TR"),
 ("israel", "IL"),
 ("tel aviv", "IL"),
 ("jerusalem", "IL"),
 ("haifa", "IL"),
 ("technion", "IL"),
 ("hebrew university", "IL"),
 ("weizmann", "IL"),
 ("saudi arabia", "SA"),
 ("riyadh", "SA"),
 ("jeddah", "SA"),
 ("kaust", "SA"),
 ("king saud", "SA"),
 ("kfupm", "SA"),
 ("uae", "AE"),
 ("dubai", "AE"),
 ("abu dhabi", "AE"),
 ("aub", "AE"),
 ("united kingdom", "GB"),
 ("uk", "GB"),
 ("england", "GB"),
 ("britain", "GB"),
 ("cambridge", "GB"),
 ("oxford", "GB"),
 ("london", "GB"),
 ("manchester", "GB"),
 ("edinburgh", "GB"),
 ("glasgow", "GB"),
 ("bristol", "GB"),
 ("imperial", "GB"),
 ("ucl", "GB"),
 ("kcl", "GB"),
 ("lse", "GB"),
 ("germany", "DE"),
 ("berlin", "DE"),
 ("munich", "DE"),
 ("hamburg", "DE"),
 ("cologne", "DE"),
 ("frankfurt", "DE"),
 ("stuttgart", "DE"),
 ("dusseldorf", "DE"),
 ("max planck", "DE"),
 ("tum", "DE"),
 ("kit", "DE"),
 ("rwth", "DE"),
 ("france", "FR"),
 ("paris", "FR"),
 ("lyon", "FR"),
 ("marseille", "FR"),
 ("toulouse", "FR"),
 ("sorbonne", "FR"),
 ("inria", "FR"),
 ("cnrs", "FR"),
 ("italy", "IT"),
 ("rome", "IT"),
 ("milan", "IT"),
 ("naples", "IT"),
 ("turin", "IT"),
 ("bologna", "IT"),
 ("florence", "IT"),
 ("genoa", "IT"),
 ("spain", "ES"),
 ("madrid", "ES"),
 ("barcelona", "ES"),
 ("valencia", "ES"),
 ("seville", "ES"),
 ("upc", "ES"),
 ("uam", "ES"),
 ("netherlands", "NL"),
 ("amsterdam", "NL"),
 ("rotterdam", "NL"),
 ("utrecht", "NL"),
 ("delft", "NL"),
 ("eindhoven", "NL"),
 ("tue", "NL"),
 ("sweden", "SE"),
 ("stockholm", "SE"),
 ("gothenburg", "SE"),
 ("kth", "SE"),
 ("chalmers", "SE"),
 ("lund", "SE"),
 ("switzerland", "CH"),
 ("zurich", "CH"),
 ("geneva", "CH"),
 ("basel", "CH"),
 ("eth", "CH"),
 ("epfl", "CH"),
 ("cern", "CH"),
 ("russia", "RU"),
 ("moscow", "RU"),
 ("st petersburg", "RU"),
 ("saint petersburg", "RU"),
 ("novosibirsk", "RU"),
 ("msu", "RU"),
 ("united states", "US"),
 ("usa", "US"),
 ("america", "US"),
 ("u.s.", "US"),
 ("california", "US"),
 ("texas", "US"),
 ("new york", "US"),
 ("florida", "US"),
 ("mit", "US"),
 ("stanford", "US"),
 ("harvard", "US"),
 ("berkeley", "US"),
 ("caltech", "US"),
 ("princeton", "US"),
 ("yale", "US"),
 ("columbia", "US"),
 ("university of", "US"),
 ("state university", "US"),
 ("tech", "US"),
 ("canada", "CA"),
 ("toronto", "CA"),
 ("vancouver", "CA"),
 ("montreal", "CA"),
 ("calgary", "CA"),
 ("ottawa", "CA"),
 ("ubc", "CA"),
 ("mcgill", "CA"),
 ("waterloo", "CA"),
 ("uoft", "CA"),
 ("australia", "AU"),
 ("sydney", "AU"),
 ("melbourne", "AU"),
 ("brisbane", "AU"),
 ("perth", "AU"),
 ("adelaide", "AU"),
 ("unsw", "AU"),
 ("usyd", "AU"),
 ("unimelb", "AU"),
 ("anu", "AU"),
 ("monash", "AU"),
 ("new zealand", "NZ"),
 ("auckland", "NZ"),
 ("wellington", "NZ"),
 ("christchurch", "NZ"),
 ("south africa", "ZA"),
 ("cape town", "ZA"),
 ("johannesburg", "ZA"),
 ("durban", "ZA"),
 ("uct", "ZA"),
 ("wits", "ZA"),
 ("stellenbosch", "ZA"),
 ("egypt", "EG"),
 ("cairo", "EG"),
 ("alexandria", "EG"),
 ("auc", "EG"),
 ("brazil", "BR"),
 ("sao paulo", "BR"),
 ("rio de janeiro", "BR"),
 ("brasilia", "BR"),
 ("usp", "BR"),
 ("unicamp", "BR"),
 ("mexico", "MX"),
 ("mexico city", "MX"),
 ("guadalajara", "MX"),
 ("monterrey", "MX"),
 ("unam", "MX"),
 ("itesm", "MX"),
 ("argentina", "AR"),
 ("buenos aires", "AR"),
 ("cordoba", "AR"),
 ("uba", "AR"),
 ("chile", "CL"),
 ("santiago", "CL"),
 ("valparaiso", "CL"),
 ("uc", "CL")]

/-- First keyword of the table (in insertion order) occurring in the
lowercased affiliation text, and its country code (lines 282-284). -/
def lookupKW : List (String × String) → List Char → Option String
  | [], _ => none
  | (kw, cc) :: rest, aff =>
    if containsL aff kw.data then some cc else lookupKW rest aff

/-- The affiliation loop of `extract_country_from_semantic_scholar`:
first affiliation with a keyword hit wins. -/
def scanAffs : List String → Option String
  | [] => none
  | a :: rest =>
    match lookupKW country_keywords (lowerL a.data) with
    | some cc => some cc
    | none => scanAffs rest

/-- The author loop of `extract_country_from_semantic_scholar`: authors are
scanned in order, skipping those without an `affiliations` key. -/
def scanAuthors : List SSAuthor → Option String
  | [] => none
  | au :: rest =>
    match au.affiliations with
    | none => scanAuthors rest
    | some affs =>
      match scanAffs affs with
      | some cc => some cc
      | none => scanAuthors rest

/-- Embeds `AuthorCountryLookup.extract_country_from_semantic_scholar`
(get_countries_conf_updated.py lines 141-286). -/
def extract_country_from_semantic_scholar (paper : SSPaper) : Option String :=
  match paper.authors with
  | none => none
  | some authors => scanAuthors authors

/-- The first author extracted by `get_author_country` (lines 290-291):
`authors_str.split(',')`, each part stripped, first element. -/
def firstAuthorOf (authors_str : String) : String :=
  String.mk (((splitComma authors_str.data).map stripL).headD [])

/-- Embeds `AuthorCountryLookup.get_author_country`
(get_countries_conf_updated.py lines 288-312).  Returns the country, the new
state, the number of OpenAlex requests and the number of Semantic Scholar
requests.  Tier 1 is `get_country_from_openalex`; a truthy Tier-1 result
returns immediately; otherwise Tier 2 queries Semantic Scholar and, on a
truthy extracted country, backfills `author_cache` for the first author. -/
def get_author_country (oaNet : OAOutcome) (ssNet : SSOutcome) (st : ResolverState)
    (title : String) (authors_str : String) :
    Option String × ResolverState × Nat × Nat :=
  let authors := ((splitComma authors_str.data).map stripL).map String.mk
  let first_author := firstAuthorOf authors_str
  if first_author.isEmpty then (none, st, 0, 0)
  else
    let r1 := get_country_from_openalex oaNet st first_author
    if truthyStr r1.1 then (r1.1, r1.2.1, r1.2.2, 0)
    else
      let r2 := get_semantic_scholar_paper ssNet r1.2.1 title authors
      match r2.1 with
      | none => (none, r2.2.1, r1.2.2, r2.2.2)
      | some p =>
        let c2 := extract_country_from_semantic_scholar p
        if truthyStr c2 then
          (c2, { r2.2.1 with author_cache := (first_author, c2) :: (r2.2.1).author_cache },
           r1.2.2, r2.2.2)
        else (none, r2.2.1, r1.2.2, r2.2.2)

/-! ## Helper lemmas -/

theorem isPrefixL_map_toLower (p : List Char) :
    ∀ s : List Char, isPrefixL p s = true → isPrefixL (lowerL p) (lowerL s) = true := by
  induction p with
  | nil => intro s _; simp [isPrefixL, lowerL]
  | cons a as ih =>
    intro s h
    cases s with
    | nil => simp [isPrefixL] at h
    | cons b bs =>
      simp only [isPrefixL, Bool.and_eq_true, beq_iff_eq] at h
      simp only [lowerL, List.map_cons, isPrefixL, Bool.and_eq_true, beq_iff_eq]
      exact ⟨by rw [h.1], ih bs h.2⟩

theorem containsL_map_toLower (p : List Char) :
    ∀ s : List Char, containsL s p = true → containsL (lowerL s) (lowerL p) = true := by
  intro s
  induction s with
  | nil =>
    intro h
    cases p with
    | nil => simp [containsL, isPrefixL, lowerL]
    | cons a as => simp [containsL, isPrefixL] at h
  | cons c t ih =>
    intro h
    simp only [containsL, Bool.or_eq_true] at h
    simp only [lowerL, List.map_cons, containsL, Bool.or_eq_true]
    rcases h with h | h
    · exact Or.inl (by simpa [lowerL] using isPrefixL_map_toLower p (c :: t) h)
    · exact Or.inr (by simpa [lowerL] using ih h)

/-! ## Claim C1 -/

/-- C1: `is_valid_content_link(url)` returns true iff `url` contains
"dblp.org", contains none of the denylist substrings (tested on the
lowercased url) and contains at least one allowlist pattern; in particular a
url containing "semanticscholar" or "citeseer" is always rejected. -/
theorem is_valid_content_link_correct :
    (∀ url : String,
        is_valid_content_link url = true ↔
          (containsL url.data "dblp.org".data = true ∧
           (∀ p ∈ skip_patterns, containsL (lowerL url.data) p.data = false) ∧
           (∃ p ∈ valid_patterns, containsL url.data p.data = true))) ∧
    (∀ url : String, containsL url.data "semanticscholar".data = true →
        is_valid_content_link url = false) ∧
    (∀ url : String, containsL url.data "citeseer".data = true →
        is_valid_content_link url = false) := by
  have hreject : ∀ (w : String) (url : String), w ∈ skip_patterns →
      containsL (lowerL url.data) w.data = true → is_valid_content_link url = false := by
    intro w url hw hc
    unfold is_valid_content_link
    cases hd : containsL url.data "dblp.org".data with
    | false => simp [hd]
    | true =>
      have hany : skip_patterns.any (fun p => containsL (lowerL url.data) p.data) = true :=
        List.any_eq_true.mpr ⟨w, hw, hc⟩
      simp [hd, hany]
  refine ⟨?_, ?_, ?_⟩
  · intro url
    unfold is_valid_content_link
    cases hd : containsL url.data "dblp.org".data with
    | false => simp [hd]
    | true =>
      cases hs : skip_patterns.any (fun p => containsL (lowerL url.data) p.data) with
      | true =>
        simp only [hd, Bool.not_true, Bool.false_eq_true, if_false, hs, if_true]
        rcases List.any_eq_true.mp hs with ⟨w, hw, hc⟩
        simp only [false_iff, not_and]
        intro _ hall
        exact absurd (hall w hw) (by simp [hc])
      | false =>
        simp only [hd, Bool.not_true, Bool.false_eq_true, if_false, hs, List.any_eq_true]
        constructor
        · intro h
          refine ⟨trivial, ?_, h⟩
          intro w hw
          by_contra hne
          have : skip_patterns.any (fun p => containsL (lowerL url.data) p.data) = true :=
            List.any_eq_true.mpr ⟨w, hw, by simpa using hne⟩
          simp [this] at hs
        · intro h
          exact h.2.2
  · intro url h
    have hl : containsL (lowerL url.data) "semanticscholar".data = true := by
      have := containsL_map_toLower "semanticscholar".data url.data h
      simpa [show lowerL "semanticscholar".data = "semanticscholar".data from by decide] using this
    exact hreject "semanticscholar" url (by decide) hl
  · intro url h
    have hl : containsL (lowerL url.data) "citeseer".data = true := by
      have := containsL_map_toLower "citeseer".data url.data h
      simpa [show lowerL "citeseer".data = "citeseer".data from by decide] using this
    exact hreject "citeseer" url (by decide) hl

/-- Witness for C1 at concrete urls: a `/db/conf/` page on dblp.org is
accepted, and a url containing "semanticscholar" is rejected. -/
theorem is_valid_content_link_correct_witness :
    is_valid_content_link "https://dblp.org/db/conf/pldi/pldi2019.html" = true ∧
    is_valid_content_link "https://www.semanticscholar.org/p?src=dblp.org/db/conf/x" = false := by
  constructor
  · exact (is_valid_content_link_correct.1 "https://dblp.org/db/conf/pldi/pldi2019.html").mpr
      ⟨by decide, by decide, ⟨"/db/conf/", by decide, by decide⟩⟩
  · exact is_valid_content_link_correct.2.1
      "https://www.semanticscholar.org/p?src=dblp.org/db/conf/x" (by decide)

/-! ## Claim C2 -/

/-- C2: `is_paper_entry` implements the five-rule first-match-wins cascade:
it equals the policy "not editorial, and (publication-type class or an author
sub-element or a title longer than 10 characters)"; an editorial node is
rejected even with author sub-elements; and a node with title
"A Study of X", no author elements and no type class is accepted (by the
title rule, the only rule whose condition it satisfies). -/
theorem is_paper_entry_policy :
    (∀ e : PageEntry, is_paper_entry e = is_record_policy e) ∧
    (∀ e : PageEntry, containsL e.classes.data "editor".data = true →
        is_paper_entry e = false) ∧
    is_paper_entry ⟨"", 0, some "A Study of X"⟩ = true ∧
    (∀ e : PageEntry,
        paper_indicators.any (fun s => containsL e.classes.data s.data) = false →
        e.authorCount = 0 →
        e.titleText = some "A Study of X" →
        containsL e.classes.data "editor".data = false →
        containsL e.classes.data "toc".data = false →
        is_paper_entry e = true) := by
  refine ⟨?_, ?_, by decide, ?_⟩
  · intro e
    unfold is_paper_entry is_record_policy
    cases h1 : (containsL e.classes.data "editor".data || containsL e.classes.data "toc".data) with
    | true => simp [h1]
    | false =>
      cases h2 : paper_indicators.any (fun s => containsL e.classes.data s.data) with
      | true => simp [h1, h2]
      | false =>
        cases h3 : decide (0 < e.authorCount) with
        | true => simp [h1, h2, h3]
        | false => simp [h1, h2, h3]
  · intro e h
    unfold is_paper_entry
    simp [h]
  · intro e h2 h3 h4 h5 h6
    unfold is_paper_entry
    simp [h2, h3, h4, h5, h6, stripL, lowerL]

/-- Witness for C2: an editorial entry carrying three author sub-elements is
rejected, and a bare entry whose only feature is the 12-character title
"A Study of X" is accepted. -/
theorem is_paper_entry_policy_witness :
    is_paper_entry ⟨"entry editor toc", 3, some "A substantial paper title"⟩ = false ∧
    is_paper_entry ⟨"entry", 0, some "A Study of X"⟩ = true := by
  constructor
  · exact is_paper_entry_policy.2.1 ⟨"entry editor toc", 3, some "A substantial paper title"⟩
      (by decide)
  · exact is_paper_entry_policy.2.2.2 ⟨"entry", 0, some "A Study of X"⟩
      (by decide) (by decide) (by decide) (by decide) (by decide)

/-! ## Deduplication lemmas -/

theorem dedupAux_sound (l : List ConfPaper) :
    ∀ seen : List (List Char × List Char),
      (∀ p ∈ dedupAux l seen, nonblankName p = true ∧ paperKey p ∉ seen) ∧
      (dedupAux l seen).Pairwise (fun a b => paperKey a ≠ paperKey b) := by
  induction l with
  | nil => intro seen; simp [dedupAux]
  | cons p rest ih =>
    intro seen
    unfold dedupAux
    by_cases h1 : paperKey p ∈ seen
    · simp only [h1, if_true]
      exact ih seen
    · by_cases h2 : nonblankName p = true
      · simp only [h1, if_false, h2, if_true]
        refine ⟨?_, ?_⟩
        · intro q hq0
          rcases List.mem_cons.mp hq0 with rfl | hq
          · exact ⟨h2, h1⟩
          · have hmem := (ih (paperKey p :: seen)).1 q hq
            exact ⟨hmem.1, fun hs => hmem.2 (List.mem_cons_of_mem _ hs)⟩
        · refine List.Pairwise.cons ?_ (ih (paperKey p :: seen)).2
          intro q hq hkey
          exact (ih (paperKey p :: seen)).1 q hq |>.2 (hkey ▸ List.mem_cons_self _ _)
      · simp only [h1, if_false, h2, if_false]
        exact ih seen

theorem dedupAux_fixed (l : List ConfPaper) :
    ∀ seen : List (List Char × List Char),
      (∀ p ∈ l, nonblankName p = true) →
      l.Pairwise (fun a b => paperKey a ≠ paperKey b) →
      (∀ p ∈ l, paperKey p ∉ seen) →
      dedupAux l seen = l := by
  induction l with
  | nil => intro seen _ _ _; simp [dedupAux]
  | cons p rest ih =>
    intro seen hnb hpw hseen
    have h1 : paperKey p ∉ seen := hseen p (List.mem_cons_self _ _)
    have h2 : nonblankName p = true := hnb p (List.mem_cons_self _ _)
    unfold dedupAux
    simp only [h1, if_false, h2, if_true]
    congr 1
    refine ih (paperKey p :: seen) (fun q hq => hnb q (List.mem_cons_of_mem _ hq))
      (List.Pairwise.of_cons hpw) ?_
    intro q hq
    simp only [List.mem_cons, not_or]
    exact ⟨fun he => (List.rel_of_pairwise_cons hpw hq) he.symm,
           hseen q (List.mem_cons_of_mem _ hq)⟩

theorem dedupAux_eq_firstOccAux (l : List ConfPaper) :
    ∀ seen : List (List Char × List Char),
      (∀ p ∈ l, nonblankName p = true) →
      dedupAux l seen = firstOccAux l seen := by
  induction l with
  | nil => intro seen _; simp [dedupAux, firstOccAux]
  | cons p rest ih =>
    intro seen hnb
    have h2 : nonblankName p = true := hnb p (List.mem_cons_self _ _)
    unfold dedupAux firstOccAux
    by_cases h1 : paperKey p ∈ seen
    · simp only [h1, if_true]
      exact ih seen (fun q hq => hnb q (List.mem_cons_of_mem _ hq))
    · simp only [h1, if_false, h2, if_true]
      congr 1
      exact ih (paperKey p :: seen) (fun q hq => hnb q (List.mem_cons_of_mem _ hq))

/-! ## Claim C6 -/

/-- C6: record-level deduplication is idempotent; on records with nonblank
names (the only records the extraction loop accepts, conf_scrapper.py
line 359) it keeps exactly the first occurrence of each
(lowercased-trimmed title, lowercased-trimmed authors) key in first-seen
order; and a later record with the same key is dropped whatever its other
fields are. -/
theorem deduplicate_papers_correct :
    (∀ l : List ConfPaper, deduplicate_papers (deduplicate_papers l) = deduplicate_papers l) ∧
    (∀ l : List ConfPaper, (∀ p ∈ l, nonblankName p = true) →
        deduplicate_papers l = firstOcc l) ∧
    (∀ p₁ p₂ : ConfPaper, paperKey p₁ = paperKey p₂ → nonblankName p₁ = true →
        deduplicate_papers [p₁, p₂] = [p₁]) := by
  refine ⟨?_, ?_, ?_⟩
  · intro l
    exact dedupAux_fixed (dedupAux l []) []
      (fun p hp => ((dedupAux_sound l []).1 p hp).1)
      (dedupAux_sound l []).2
      (fun p _ => List.not_mem_nil _)
  · intro l h
    exact dedupAux_eq_firstOccAux l [] h
  · intro p₁ p₂ hkey hnb
    unfold deduplicate_papers dedupAux
    simp only [List.not_mem_nil, if_false, hnb, if_true]
    unfold dedupAux
    simp only [← hkey, List.mem_cons, List.not_mem_nil, or_false, if_pos rfl]
    rfl

/-- Witness for C6 at concrete records: two records whose keys agree up to
case and surrounding whitespace but whose page urls differ collapse to the
first; dedup of that output is itself. -/
theorem deduplicate_papers_correct_witness :
    deduplicate_papers
        [⟨"A Study of X", "Jane Doe", "https://dblp.org/1", "", "2019"⟩,
         ⟨" a study of x ", "JANE DOE", "https://dblp.org/2", "", "2020"⟩]
      = [⟨"A Study of X", "Jane Doe", "https://dblp.org/1", "", "2019"⟩] ∧
    deduplicate_papers
        [⟨"A Study of X", "Jane Doe", "https://dblp.org/1", "", "2019"⟩,
         ⟨" a study of x ", "JANE DOE", "https://dblp.org/2", "", "2020"⟩]
      = firstOcc
        [⟨"A Study of X", "Jane Doe", "https://dblp.org/1", "", "2019"⟩,
         ⟨" a study of x ", "JANE DOE", "https://dblp.org/2", "", "2020"⟩] := by
  constructor
  · exact deduplicate_papers_correct.2.2
      ⟨"A Study of X", "Jane Doe", "https://dblp.org/1", "", "2019"⟩
      ⟨" a study of x ", "JANE DOE", "https://dblp.org/2", "", "2020"⟩
      (by decide) (by decide)
  · exact deduplicate_papers_correct.2.1
      [⟨"A Study of X", "Jane Doe", "https://dblp.org/1", "", "2019"⟩,
       ⟨" a study of x ", "JANE DOE", "https://dblp.org/2", "", "2020"⟩]
      (by decide)

/-! ## Claim C7 -/

/-- C7 counterexample: two distinct records with the same deduplication key
(different page urls) are BOTH handed to `insert_conf_paper` within one
extraction batch — the per-record insertion of conf_scrapper.py line 362
happens before the deduplication of lines 371-378, so the records persisted
in one batch are not unique under the key. -/
theorem scrape_batch_counterexample :
    (scrape_batch
        [⟨"A Study of X", "Jane Doe", "https://dblp.org/1", "", "2019"⟩,
         ⟨"A Study of X", "Jane Doe", "https://dblp.org/2", "", "2019"⟩]).1
      = [⟨"A Study of X", "Jane Doe", "https://dblp.org/1", "", "2019"⟩,
         ⟨"A Study of X", "Jane Doe", "https://dblp.org/2", "", "2019"⟩] ∧
    paperKey ⟨"A Study of X", "Jane Doe", "https://dblp.org/1", "", "2019"⟩
      = paperKey ⟨"A Study of X", "Jane Doe", "https://dblp.org/2", "", "2019"⟩ ∧
    (⟨"A Study of X", "Jane Doe", "https://dblp.org/1", "", "2019"⟩ : ConfPaper)
      ≠ ⟨"A Study of X", "Jane Doe", "https://dblp.org/2", "", "2019"⟩ := by
  refine ⟨by decide, by decide, by decide⟩

/-- C7 (amended): within one batch the DEDUPLICATED list returned by the
extraction pass is unique under the key (pairwise distinct keys), and it is
exactly the deduplication of the insertion sequence; but the insertion
sequence itself is every accepted nonblank record, duplicates included. -/
theorem scrape_batch_amended :
    (∀ accepted : List ConfPaper,
        ((scrape_batch accepted).2).Pairwise (fun a b => paperKey a ≠ paperKey b)) ∧
    (∀ accepted : List ConfPaper,
        (scrape_batch accepted).1 = accepted.filter (fun p => nonblankName p)) ∧
    (∀ accepted : List ConfPaper,
        (scrape_batch accepted).2 = deduplicate_papers (scrape_batch accepted).1) := by
  refine ⟨?_, fun _ => rfl, fun _ => rfl⟩
  intro accepted
  exact (dedupAux_sound (accepted.filter (fun p => nonblankName p)) []).2

/-! ## Claim C3 -/

/-- C3: the resolver consults the author cache first — a cached non-none
(nonempty) country code for the first author is returned with no network
request and no state change; and a truthy Tier-1 result is returned
immediately, with zero Semantic Scholar (Tier-2) requests. -/
theorem get_author_country_cache_first :
    (∀ (oaNet : OAOutcome) (ssNet : SSOutcome) (st : ResolverState)
        (title authors_str : String) (c : String),
        firstAuthorOf authors_str ≠ "" →
        alookup st.author_cache (firstAuthorOf authors_str) = some (some c) →
        c ≠ "" →
        get_author_country oaNet ssNet st title authors_str = (some c, st, 0, 0)) ∧
    (∀ (oaNet : OAOutcome) (ssNet : SSOutcome) (st : ResolverState)
        (title authors_str : String),
        firstAuthorOf authors_str ≠ "" →
        truthyStr (get_country_from_openalex oaNet st (firstAuthorOf authors_str)).1 = true →
        get_author_country oaNet ssNet st title authors_str =
          ((get_country_from_openalex oaNet st (firstAuthorOf authors_str)).1,
           (get_country_from_openalex oaNet st (firstAuthorOf authors_str)).2.1,
           (get_country_from_openalex oaNet st (firstAuthorOf authors_str)).2.2, 0)) := by
  constructor
  · intro oaNet ssNet st title authors_str c hfa hcache hc
    have hA : (firstAuthorOf authors_str).isEmpty = false := by
      cases h : (firstAuthorOf authors_str).isEmpty with
      | false => rfl
      | true => exact absurd ((String.isEmpty_iff _).mp h) hfa
    have h1 : get_country_from_openalex oaNet st (firstAuthorOf authors_str) = (some c, st, 0) := by
      unfold get_country_from_openalex
      rw [hcache]
    have htr : truthyStr (some c) = true := by
      simp only [truthyStr]
      cases h : c.isEmpty with
      | false => rfl
      | true => exact absurd ((String.isEmpty_iff _).mp h) hc
    simp [get_author_country, hA, h1, htr]
  · intro oaNet ssNet st title authors_str hfa htr
    have hA : (firstAuthorOf authors_str).isEmpty = false := by
      cases h : (firstAuthorOf authors_str).isEmpty with
      | false => rfl
      | true => exact absurd ((String.isEmpty_iff _).mp h) hfa
    simp [get_author_country, hA, htr]

/-- Witness for C3: with the author cache pre-populated with
`Jane Doe ↦ US`, resolving a paper by "Jane Doe" returns "US", with zero
OpenAlex and zero Semantic Scholar requests and the state unchanged, for
failing networks. -/
theorem get_author_country_cache_first_witness :
    get_author_country .err .err ⟨[("Jane Doe", some "US")], []⟩
        "Some Paper" "Jane Doe, John Roe"
      = (some "US", ⟨[("Jane Doe", some "US")], []⟩, 0, 0) :=
  get_author_country_cache_first.1 .err .err ⟨[("Jane Doe", some "US")], []⟩
    "Some Paper" "Jane Doe, John Roe" "US" (by decide) (by decide) (by decide)

/-! ## Claim C5 -/

/-- C5: a network/parse error in a tier is swallowed: when the cache misses,
a failing OpenAlex request (exception or non-200, both raise via
`raise_for_status`) makes Tier 1 record `none` in the author cache and
return `none` after exactly one request; a failing or non-200 Semantic
Scholar request makes Tier 2 record `none` in the paper cache and return
`none` after exactly one request.  The embedded functions are total, so no
exception propagates, and the request count 1 shows no retry occurs. -/
theorem tier_errors_swallowed :
    (∀ (st : ResolverState) (name : String),
        alookup st.author_cache name = none →
        get_country_from_openalex .err st name =
          (none, { st with author_cache := (name, none) :: st.author_cache }, 1)) ∧
    (∀ (st : ResolverState) (title : String) (authors : List String),
        alookup st.paper_cache (ssCacheKey title) = none →
        get_semantic_scholar_paper .err st title authors =
          (none, { st with paper_cache := (ssCacheKey title, none) :: st.paper_cache }, 1) ∧
        get_semantic_scholar_paper .notOk st title authors =
          (none, { st with paper_cache := (ssCacheKey title, none) :: st.paper_cache }, 1)) := by
  constructor
  · intro st name hmiss
    unfold get_country_from_openalex
    rw [hmiss]
  · intro st title authors hmiss
    constructor
    · unfold get_semantic_scholar_paper
      rw [hmiss]
    · unfold get_semantic_scholar_paper
      rw [hmiss]

/-- Witness for C5 on empty caches: the error outcomes cache `none` and
return `none` after one request, in both tiers. -/
theorem tier_errors_swallowed_witness :
    get_country_from_openalex .err ⟨[], []⟩ "Jane Doe"
      = (none, ⟨[("Jane Doe", none)], []⟩, 1) ∧
    get_semantic_scholar_paper .err ⟨[], []⟩ "Some Paper" ["Jane Doe"]
      = (none, ⟨[], [(ssCacheKey "Some Paper", none)]⟩, 1) ∧
    get_semantic_scholar_paper .notOk ⟨[], []⟩ "Some Paper" ["Jane Doe"]
      = (none, ⟨[], [(ssCacheKey "Some Paper", none)]⟩, 1) :=
  ⟨tier_errors_swallowed.1 ⟨[], []⟩ "Jane Doe" (by decide),
   (tier_errors_swallowed.2 ⟨[], []⟩ "Some Paper" ["Jane Doe"] (by decide)).1,
   (tier_errors_swallowed.2 ⟨[], []⟩ "Some Paper" ["Jane Doe"] (by decide)).2⟩

/-! ## Resolver helper lemmas -/

theorem resolver_cache_hit (oaNet : OAOutcome) (ssNet : SSOutcome) (st : ResolverState)
    (title authors_str c : String)
    (hfa : (firstAuthorOf authors_str).isEmpty = false)
    (hcache : alookup st.author_cache (firstAuthorOf authors_str) = some (some c))
    (hc : truthyStr (some c) = true) :
    get_author_country oaNet ssNet st title authors_str = (some c, st, 0, 0) := by
  have h1 : get_country_from_openalex oaNet st (firstAuthorOf authors_str) = (some c, st, 0) := by
    unfold get_country_from_openalex
    rw [hcache]
  simp [get_author_country, hfa, h1, hc]

theorem resolver_tier2_hit (oaNet : OAOutcome) (ssNet : SSOutcome) (st : ResolverState)
    (title authors_str : String) (p : SSPaper) (c : String)
    (hfa : (firstAuthorOf authors_str).isEmpty = false)
    (h1 : (get_country_from_openalex oaNet st (firstAuthorOf authors_str)).1 = none)
    (h2 : (get_semantic_scholar_paper ssNet
        (get_country_from_openalex oaNet st (firstAuthorOf authors_str)).2.1
        title (((splitComma authors_str.data).map stripL).map String.mk)).1 = some p)
    (h3 : extract_country_from_semantic_scholar p = some c)
    (hc : truthyStr (some c) = true) :
    get_author_country oaNet ssNet st title authors_str =
      (some c,
       { (get_semantic_scholar_paper ssNet
             (get_country_from_openalex oaNet st (firstAuthorOf authors_str)).2.1
             title (((splitComma authors_str.data).map stripL).map String.mk)).2.1 with
         author_cache := (firstAuthorOf authors_str, some c) ::
           (get_semantic_scholar_paper ssNet
             (get_country_from_openalex oaNet st (firstAuthorOf authors_str)).2.1
             title (((splitComma authors_str.data).map stripL).map String.mk)).2.1.author_cache },
       (get_country_from_openalex oaNet st (firstAuthorOf authors_str)).2.2,
       (get_semantic_scholar_paper ssNet
         (get_country_from_openalex oaNet st (firstAuthorOf authors_str)).2.1
         title (((splitComma authors_str.data).map stripL).map String.mk)).2.2) := by
  have hB : truthyStr (get_country_from_openalex oaNet st (firstAuthorOf authors_str)).1
      = false := by
    rw [h1]
    rfl
  unfold get_author_country
  simp only [hfa, hB, Bool.false_eq_true, if_false]
  rw [h2]
  simp only [h3, hc, if_true]

/-! ## Claim C4 -/

/-- C4 counterexample: Tier 1 yields none, Tier 2 finds a loosely matching
paper whose author affiliation "IIT Tsinghua" DOES contain "Tsinghua"
(case-insensitively), yet the resolver returns "IN", not "CN": the keyword
scan is first-match-wins in table order and "iit" precedes "tsinghua". -/
theorem tier2_tsinghua_counterexample :
    containsL (lowerL "IIT Tsinghua".data) "tsinghua".data = true ∧
    (get_country_from_openalex .err ⟨[], []⟩ "Li Wei").1 = none ∧
    (get_author_country .err
        (.ok [⟨"Graph Mining", some [⟨some ["IIT Tsinghua"]⟩]⟩])
        ⟨[], []⟩ "Graph Mining" "Li Wei").1 = some "IN" ∧
    ¬ (get_author_country .err
        (.ok [⟨"Graph Mining", some [⟨some ["IIT Tsinghua"]⟩]⟩])
        ⟨[], []⟩ "Graph Mining" "Li Wei").1 = some "CN" := by
  refine ⟨by decide, by decide, by decide, by decide⟩

/-- C4 (amended): when Tier 1 yields none, Tier 2 finds a candidate paper,
and the first-match-in-table-order affiliation keyword scan of that paper
yields "CN" — as it does when an affiliation contains "Tsinghua" and no
earlier-enumerated keyword matches, e.g. "Tsinghua University" — the
resolver returns "CN", backfills the Tier-1 author cache with "CN" for the
queried author name, and a later lookup for the same author short-circuits
in Tier 1 with no network request. -/
theorem tier2_tsinghua_amended :
    (∀ (oaNet : OAOutcome) (ssNet : SSOutcome) (st : ResolverState)
        (title authors_str : String) (p : SSPaper),
        firstAuthorOf authors_str ≠ "" →
        (get_country_from_openalex oaNet st (firstAuthorOf authors_str)).1 = none →
        (get_semantic_scholar_paper ssNet
            (get_country_from_openalex oaNet st (firstAuthorOf authors_str)).2.1
            title (((splitComma authors_str.data).map stripL).map String.mk)).1 = some p →
        extract_country_from_semantic_scholar p = some "CN" →
        (get_author_country oaNet ssNet st title authors_str).1 = some "CN" ∧
        alookup (get_author_country oaNet ssNet st title authors_str).2.1.author_cache
            (firstAuthorOf authors_str) = some (some "CN") ∧
        (∀ (oaNet2 : OAOutcome) (ssNet2 : SSOutcome) (title2 : String),
            get_author_country oaNet2 ssNet2
                (get_author_country oaNet ssNet st title authors_str).2.1 title2 authors_str
              = (some "CN",
                 (get_author_country oaNet ssNet st title authors_str).2.1, 0, 0))) ∧
    extract_country_from_semantic_scholar
        ⟨"P", some [⟨some ["Tsinghua University"]⟩]⟩ = some "CN" ∧
    containsL (lowerL "Tsinghua University".data) "tsinghua".data = true := by
  refine ⟨?_, by decide, by decide⟩
  intro oaNet ssNet st title authors_str p hfa h1 h2 h3
  have hA : (firstAuthorOf authors_str).isEmpty = false := by
    cases h : (firstAuthorOf authors_str).isEmpty with
    | false => rfl
    | true => exact absurd ((String.isEmpty_iff _).mp h) hfa
  have hc : truthyStr (some "CN") = true := by decide
  have hmain := resolver_tier2_hit oaNet ssNet st title authors_str p "CN" hA h1 h2 h3 hc
  refine ⟨by rw [hmain], ?_, ?_⟩
  · rw [hmain]
    simp [alookup]
  · intro oaNet2 ssNet2 title2
    refine resolver_cache_hit oaNet2 ssNet2 _ title2 authors_str "CN" hA ?_ hc
    rw [hmain]
    simp [alookup]

/-- Witness for C4 at a concrete run: empty caches, failing OpenAlex,
Semantic Scholar returning one matching paper affiliated with
"Tsinghua University"; the resolver returns "CN", the author cache ends up
holding `Li Wei ↦ CN`, and a re-run on the resulting state returns "CN"
with no requests even though both networks now fail. -/
theorem tier2_tsinghua_amended_witness :
    (get_author_country .err
        (.ok [⟨"Graph Mining", some [⟨some ["Tsinghua University"]⟩]⟩])
        ⟨[], []⟩ "Graph Mining" "Li Wei").1 = some "CN" ∧
    alookup (get_author_country .err
        (.ok [⟨"Graph Mining", some [⟨some ["Tsinghua University"]⟩]⟩])
        ⟨[], []⟩ "Graph Mining" "Li Wei").2.1.author_cache
        (firstAuthorOf "Li Wei") = some (some "CN") ∧
    get_author_country .err .err
        (get_author_country .err
          (.ok [⟨"Graph Mining", some [⟨some ["Tsinghua University"]⟩]⟩])
          ⟨[], []⟩ "Graph Mining" "Li Wei").2.1 "Another Title" "Li Wei"
      = (some "CN",
         (get_author_country .err
           (.ok [⟨"Graph Mining", some [⟨some ["Tsinghua University"]⟩]⟩])
           ⟨[], []⟩ "Graph Mining" "Li Wei").2.1, 0, 0) := by
  have h := tier2_tsinghua_amended.1 .err
    (.ok [⟨"Graph Mining", some [⟨some ["Tsinghua University"]⟩]⟩])
    ⟨[], []⟩ "Graph Mining" "Li Wei"
    ⟨"Graph Mining", some [⟨some ["Tsinghua University"]⟩]⟩
    (by decide) (by decide) (by decide) (by decide)
  exact ⟨h.1, h.2.1, h.2.2 .err .err "Another Title"⟩

/-! ## Year-range lemma -/

/-- Wherever the year-range pattern `\b(19|20)\d{2}-(19|20)?\d{2}\b` matches,
the plain pattern `\b(19|20)\d{2}\b` also matches: the hyphen after the first
four digits is a word boundary. -/
theorem findRange_isSome_findYear (t : List Char) :
    ∀ prev : Option Char, (findRangeFrom prev t).isSome = true →
      (findYearFrom prev t).isSome = true := by
  induction t with
  | nil => intro prev h; simp [findRangeFrom] at h
  | cons e rest0 ih =>
    intro prev h
    rcases rest0 with _ | ⟨f, rest1⟩
    · simp [findRangeFrom] at h
    rcases rest1 with _ | ⟨g, rest2⟩
    · simp [findRangeFrom] at h
    rcases rest2 with _ | ⟨h4, rest3⟩
    · simp [findRangeFrom] at h
    rcases rest3 with _ | ⟨m, rest4⟩
    · simp [findRangeFrom] at h
    have hr : findRangeFrom prev (e :: f :: g :: h4 :: m :: rest4)
        = if bdryB prev && isYearStart e f && g.isDigit && h4.isDigit && (m == '-')
              && rangeTailOk rest4
          then some [e, f, g, h4]
          else findRangeFrom (some e) (f :: g :: h4 :: m :: rest4) := rfl
    have hy : findYearFrom prev (e :: f :: g :: h4 :: m :: rest4)
        = if bdryB prev && isYearStart e f && g.isDigit && h4.isDigit && bdryA (m :: rest4)
          then some [e, f, g, h4]
          else findYearFrom (some e) (f :: g :: h4 :: m :: rest4) := rfl
    rw [hr] at h
    rw [hy]
    cases hcr : (bdryB prev && isYearStart e f && g.isDigit && h4.isDigit && (m == '-')
        && rangeTailOk rest4) with
    | true =>
      have hcy : (bdryB prev && isYearStart e f && g.isDigit && h4.isDigit
          && bdryA (m :: rest4)) = true := by
        simp only [Bool.and_eq_true, beq_iff_eq] at hcr
        obtain ⟨⟨⟨⟨⟨hb, hys⟩, hg⟩, hh⟩, hm⟩, -⟩ := hcr
        subst hm
        simp only [Bool.and_eq_true]
        exact ⟨⟨⟨⟨hb, hys⟩, hg⟩, hh⟩, rfl⟩
      rw [hcy]
      rfl
    | false =>
      rw [hcr] at h
      simp only [Bool.false_eq_true, if_false] at h
      cases hcy : (bdryB prev && isYearStart e f && g.isDigit && h4.isDigit
          && bdryA (m :: rest4)) with
      | true => rfl
      | false =>
        simp only [Bool.false_eq_true, if_false]
        exact ih (some e) h

/-! ## Claim C8 -/

/-- C8 counterexample: on the text "2017-2019" the exact pattern
`\b(19|20)\d{2}\b` DOES match (the hyphen is a word boundary, so it matches
"2017"); hence a text containing "2017-2019" and no other 4-digit token
cannot reach the range-parsing fallback — the claimed scenario "no exact
match exists, year 2017 comes from the range path" is impossible, and the
year "2017" is produced by the exact-match path. -/
theorem year_range_path_counterexample :
    ¬ findYearFrom none "2017-2019".data = none ∧
    findYearFrom none "2017-2019".data = some "2017".data ∧
    (extract_volume_info "2017-2019").year = "2017".data := by
  refine ⟨by decide, by decide, by decide⟩

/-- C8 (amended): `extract_volume_info` prefers the exact 4-digit year match
and consults the hyphenated-range pattern only when the exact search fails;
but whenever the range pattern matches, the exact pattern matches too, so
the fallback never fires (when the exact search fails the year is `""`), and
text containing "2017-2019" yields year "2017" via the exact-match path. -/
theorem extract_volume_year_amended :
    (∀ t : String, (findRangeFrom none t.data).isSome = true →
        (findYearFrom none t.data).isSome = true) ∧
    (∀ (t : String) (y : List Char), findYearFrom none t.data = some y →
        (extract_volume_info t).year = y) ∧
    (∀ t : String, findYearFrom none t.data = none →
        (extract_volume_info t).year = []) ∧
    (extract_volume_info "2017-2019").year = "2017".data := by
  refine ⟨fun t => findRange_isSome_findYear t.data none, ?_, ?_, by decide⟩
  · intro t y h
    simp [extract_volume_info, h]
  · intro t h
    cases hr : findRangeFrom none t.data with
    | none => simp [extract_volume_info, h, hr]
    | some r =>
      have hx := findRange_isSome_findYear t.data none (by rw [hr]; rfl)
      rw [h] at hx
      simp at hx

/-- Witness for C8: the range pattern matches "Volume 9, 2017-19" and so
does the exact pattern; "presented in 1999 at X" parses to year "1999"
via the exact path; "Volume Seven" has no year at all and parses to "". -/
theorem extract_volume_year_amended_witness :
    (findYearFrom none "Volume 9, 2017-19".data).isSome = true ∧
    (extract_volume_info "presented in 1999 at X").year = "1999".data ∧
    (extract_volume_info "Volume Seven").year = [] := by
  refine ⟨extract_volume_year_amended.1 "Volume 9, 2017-19" (by decide),
          extract_volume_year_amended.2.1 "presented in 1999 at X" "1999".data (by decide),
          extract_volume_year_amended.2.2.1 "Volume Seven" (by decide)⟩

/-! ## Claim C9 -/

/-- C9: a journal record's year and volume are inherited from the enclosing
volume context when the context (a truthy dict) supplies the respective key,
and are re-parsed from the record's own text — first `\b(19|20)\d{2}\b`
token for the year, first `vol\.?\s*(\d+)` match for the volume — when the
context is absent or does not supply the key. -/
theorem journal_yearvol_inheritance :
    (∀ (c : VolCtx) (text : String) (y : List Char), c.year = some y →
        (extract_journal_paper_yearvol (some c) text).1 = y) ∧
    (∀ (c : VolCtx) (text : String), c.year = none →
        (extract_journal_paper_yearvol (some c) text).1 = yearOfText text) ∧
    (∀ text : String, (extract_journal_paper_yearvol none text).1 = yearOfText text) ∧
    (∀ (c : VolCtx) (text : String) (v : List Char), c.volume = some v →
        (extract_journal_paper_yearvol (some c) text).2 = v) ∧
    (∀ (c : VolCtx) (text : String), c.volume = none →
        (extract_journal_paper_yearvol (some c) text).2 = volOfText text) ∧
    (∀ text : String, (extract_journal_paper_yearvol none text).2 = volOfText text) := by
  refine ⟨?_, ?_, fun _ => rfl, ?_, ?_, fun _ => rfl⟩
  · intro c text y h
    simp [extract_journal_paper_yearvol, dictTruthy, h]
  · intro c text h
    simp [extract_journal_paper_yearvol, h]
  · intro c text v h
    simp [extract_journal_paper_yearvol, dictTruthy, h]
  · intro c text h
    simp [extract_journal_paper_yearvol, h]

/-- Witness for C9: with a context supplying year "1997", the record text's
own token "2004" is ignored; with the year or volume key absent, the
respective value is re-parsed from the record text. -/
theorem journal_yearvol_inheritance_witness :
    (extract_journal_paper_yearvol (some ⟨some "7".data, some "1997".data⟩)
        "Vol. 3, 2004").1 = "1997".data ∧
    (extract_journal_paper_yearvol (some ⟨some "7".data, none⟩)
        "pages 1-10, 2004").1 = yearOfText "pages 1-10, 2004" ∧
    (extract_journal_paper_yearvol (some ⟨none, some "1997".data⟩)
        "Vol. 3, 2004").2 = volOfText "Vol. 3, 2004" ∧
    yearOfText "pages 1-10, 2004" = "2004".data ∧
    volOfText "Vol. 3, 2004" = "3".data := by
  refine ⟨journal_yearvol_inheritance.1 ⟨some "7".data, some "1997".data⟩
            "Vol. 3, 2004" "1997".data rfl,
          journal_yearvol_inheritance.2.1 ⟨some "7".data, none⟩ "pages 1-10, 2004" rfl,
          journal_yearvol_inheritance.2.2.2.2.1 ⟨none, some "1997".data⟩ "Vol. 3, 2004" rfl,
          by decide, by decide⟩

/-! ## Keyword-table lemma -/

theorem lookupKW_first_val (aff : List Char) (key val : String) :
    ∀ l : List (String × String),
      containsL aff key.data = true →
      (key, val) ∈ l →
      (∀ q ∈ l.takeWhile (fun q => q.1 != key), containsL aff q.1.data = false) →
      (∀ q ∈ l, q.1 = key → q.2 = val) →
      lookupKW l aff = some val := by
  intro l
  induction l with
  | nil => intro _ hmem _ _; simp at hmem
  | cons q rest ih =>
    obtain ⟨kw, cc⟩ := q
    intro hcont hmem htake huniq
    by_cases hq : kw = key
    · have hv : cc = val := huniq (kw, cc) (List.mem_cons_self _ _) hq
      subst hq
      subst hv
      simp [lookupKW, hcont]
    · have hne : (kw != key) = true := by
        simp only [bne_iff_ne, ne_eq]
        exact hq
      have htk : List.takeWhile (fun q => q.1 != key) ((kw, cc) :: rest)
          = (kw, cc) :: List.takeWhile (fun q => q.1 != key) rest := by
        simp [List.takeWhile_cons, hne]
      have hhead : containsL aff kw.data = false := by
        apply htake (kw, cc)
        rw [htk]
        exact List.mem_cons_self _ _
      have hmem2 : (key, val) ∈ rest := by
        rcases List.mem_cons.mp hmem with heq | h2
        · exact absurd (congrArg Prod.fst heq).symm hq
        · exact h2
      have htake2 : ∀ q ∈ List.takeWhile (fun q => q.1 != key) rest,
          containsL aff q.1.data = false := by
        intro q hq2
        apply htake q
        rw [htk]
        exact List.mem_cons_of_mem _ hq2
      have huniq2 : ∀ q ∈ rest, q.1 = key → q.2 = val := by
        intro q hq2 hk
        exact huniq q (List.mem_cons_of_mem _ hq2) hk
      simp only [lookupKW, hhead, Bool.false_eq_true, if_false]
      exact ih hcont hmem2 htake2 huniq2

/-! ## Claim C10 -/

/-- C10: the affiliation keyword classification is first-match-wins in the
enumeration order of `country_keywords`: any affiliation whose lowercased
form contains "university of" and none of the keywords enumerated before it
classifies as "US"; in particular "University of Toronto" resolves to "US"
and not "CA", although the later-ordered keyword "toronto" (mapping to "CA")
also occurs in it. -/
theorem keyword_order_university_of :
    (∀ aff : String,
        containsL (lowerL aff.data) "university of".data = true →
        (∀ q ∈ country_keywords.takeWhile (fun q => q.1 != "university of"),
            containsL (lowerL aff.data) q.1.data = false) →
        lookupKW country_keywords (lowerL aff.data) = some "US") ∧
    lookupKW country_keywords (lowerL "University of Toronto".data) = some "US" ∧
    extract_country_from_semantic_scholar
        ⟨"P", some [⟨some ["University of Toronto"]⟩]⟩ = some "US" ∧
    ("toronto", "CA") ∈ country_keywords ∧
    containsL (lowerL "University of Toronto".data) "toronto".data = true := by
  refine ⟨?_, by decide, by decide, by decide, by decide⟩
  intro aff hc htake
  exact lookupKW_first_val (lowerL aff.data) "university of" "US" country_keywords hc
    (by decide) htake (by decide)

/-- Witness for C10: "University of Somewhere" contains "university of" and
none of the 238 keywords enumerated before it, so it classifies as "US". -/
theorem keyword_order_university_of_witness :
    lookupKW country_keywords (lowerL "University of Somewhere".data) = some "US" :=
  keyword_order_university_of.1 "University of Somewhere" (by decide) (by decide)
